import Mathlib

/-!
Shallow embedding of `src/backend/app.py` (Flask + Neo4j library catalog).

The graph store is modelled as an explicit state: node lists per label
(`Autor`, `Livro`, `Genero`, `Editora`) and edge lists per relationship type
(`ESCREVEU`, `TEM_GENERO`, `PUBLICADO_POR`).  Cypher `MERGE` is match-or-create
on that state.  Each endpoint of `app.py` becomes a Lean function taking the
connection status (`driver` being live or not) and the store state; a
statement that runs inside a session/auto-commit transaction is modelled as a
list of primitive upsert steps executed by a transaction runner that commits
all-or-nothing, with an optional injected failure point standing for a
store-level failure mid-statement.
-/

/-- A `Livro` node: identity `titulo`, optional properties `ano`, `paginas`. -/
structure Book where
  titulo : String
  ano : Option Int
  paginas : Option Int
deriving DecidableEq, Repr

/-- The graph store state: nodes per label and directed edges per type.
`escreveu` holds `(autor.nome, livro.titulo)` pairs, `temGenero` holds
`(livro.titulo, genero.nome)`, `publicadoPor` holds `(livro.titulo, editora.nome)`. -/
structure GraphState where
  autores : List String
  livros : List Book
  generos : List String
  editoras : List String
  escreveu : List (String × String)
  temGenero : List (String × String)
  publicadoPor : List (String × String)
deriving DecidableEq, Repr

/-- The empty store (e.g. right after `MATCH (n) DETACH DELETE n`). -/
def GraphState.empty : GraphState := ⟨[], [], [], [], [], [], []⟩

/-- Error categories surfaced by the endpoints (HTTP 500 store-unavailable,
HTTP 400 validation, HTTP 500 store execution failure). -/
inductive ApiError where
  | storeUnavailable
  | validationError (msg : String)
  | storeError (msg : String)
deriving DecidableEq, Repr

instance {e a : Type} [DecidableEq e] [DecidableEq a] : DecidableEq (Except e a) :=
  fun x y =>
    match x, y with
    | .ok u, .ok v =>
        if h : u = v then .isTrue (by rw [h]) else .isFalse (by simp [h])
    | .error u, .error v =>
        if h : u = v then .isTrue (by rw [h]) else .isFalse (by simp [h])
    | .ok _, .error _ => .isFalse (by simp)
    | .error _, .ok _ => .isFalse (by simp)

/-- `MERGE` on a keyed list: append iff not already present. -/
def insEl {α : Type} [DecidableEq α] (x : α) (xs : List α) : List α :=
  if x ∈ xs then xs else xs ++ [x]

/-- Does a `Livro` node with this `titulo` exist? -/
def livroExists (t : String) (st : GraphState) : Bool :=
  st.livros.any (fun b => b.titulo == t)

/-- `MERGE (l:Livro {titulo: $title}) ON CREATE SET l.ano = $year, l.paginas = $pages`:
match by title; only on creation are `ano`/`paginas` set from the parameters. -/
def mergeLivro (t : String) (y p : Option Int) (st : GraphState) : GraphState :=
  if livroExists t st then st
  else { st with livros := st.livros ++ [⟨t, y, p⟩] }

/-- The primitive upsert steps of the `add_book` Cypher statement. -/
inductive UpsertStep where
  | mergeAutorS (name : String)
  | mergeLivroS (title : String) (year pages : Option Int)
  | mergeEscreveuS (author title : String)
  | mergeGeneroS (name : String)
  | mergeTemGeneroS (title genre : String)
  | mergeEditoraS (name : String)
  | mergePublicadoPorS (title pub : String)
deriving DecidableEq, Repr

/-- Effect of one upsert step on the store. -/
def applyStep (s : UpsertStep) (st : GraphState) : GraphState :=
  match s with
  | .mergeAutorS n => { st with autores := insEl n st.autores }
  | .mergeLivroS t y p => mergeLivro t y p st
  | .mergeEscreveuS a t => { st with escreveu := insEl (a, t) st.escreveu }
  | .mergeGeneroS g => { st with generos := insEl g st.generos }
  | .mergeTemGeneroS t g => { st with temGenero := insEl (t, g) st.temGenero }
  | .mergeEditoraS e => { st with editoras := insEl e st.editoras }
  | .mergePublicadoPorS t p => { st with publicadoPor := insEl (t, p) st.publicadoPor }

/-- The `FOREACH (genre_name IN $genres | ...)` stage of the statement. -/
def genreSteps (title : String) (genres : List String) : List UpsertStep :=
  genres.flatMap (fun g => [UpsertStep.mergeGeneroS g, UpsertStep.mergeTemGeneroS title g])

/-- The publisher stage of the statement: kept only when `$publisher_name`
passes `publisher_name IS NOT NULL AND publisher_name <> ''`. -/
def pubSteps (title : String) (publisherName : Option String) : List UpsertStep :=
  match publisherName with
  | some p => if p ≠ "" then [UpsertStep.mergeEditoraS p, UpsertStep.mergePublicadoPorS title p]
              else []
  | none => []

/-- The step sequence of the `add_book` statement, in Cypher order:
author merge, book merge, `ESCREVEU`, the `FOREACH` over genres, and the
publisher stage. -/
def addBookSteps (author title : String) (year pages : Option Int)
    (genres : List String) (publisherName : Option String) : List UpsertStep :=
  [UpsertStep.mergeAutorS author, UpsertStep.mergeLivroS title year pages,
   UpsertStep.mergeEscreveuS author title]
  ++ genreSteps title genres ++ pubSteps title publisherName

/-- Run the steps sequentially; fail with a store error when the injected
failure point is reached (the statement fails mid-execution at that step). -/
def runTxAux (failAt : Option Nat) (idx : Nat) :
    List UpsertStep → GraphState → Except String GraphState
  | [], st => .ok st
  | s :: rest, st =>
      if failAt = some idx then .error "falha simulada na transação"
      else runTxAux failAt (idx + 1) rest (applyStep s st)

/-- Auto-commit transaction semantics of `session.run`: the statement's
effects are committed only if every step succeeds; on failure nothing is. -/
def runTx (failAt : Option Nat) (steps : List UpsertStep) (st : GraphState) :
    Except String GraphState :=
  runTxAux failAt 0 steps st

/-- Plain sequential application of the steps (the committed effect). -/
def runNoFail (steps : List UpsertStep) (st : GraphState) : GraphState :=
  steps.foldl (fun s stp => applyStep stp s) st

/-- Python truthiness of an optional string (`None` and `''` are falsy). -/
def pyTruthy (o : Option String) : Bool :=
  match o with
  | none => false
  | some s => s ≠ ""

/-- The `add_book` validation check `all([title, author_name, genres_str])`. -/
def addBookValid (title author : Option String) (genresStr : String) : Bool :=
  pyTruthy title && pyTruthy author && genresStr ≠ ""

/-- `int(x) if x else None` on an already-numeric optional value: `0` is falsy. -/
def pyOptInt (o : Option Int) : Option Int :=
  match o with
  | some n => if n = 0 then none else some n
  | none => none

/-- A character Python's `str.strip()` removes (ASCII whitespace). -/
def isStripChar (c : Char) : Bool :=
  c == ' ' || c == '\t' || c == '\n' || c == '\r'

/-- `str.strip()` on a character list. -/
def stripChars (l : List Char) : List Char :=
  ((l.dropWhile isStripChar).reverse.dropWhile isStripChar).reverse

/-- `str.split(',')` on a character list. -/
def splitCommaAux : List Char → List Char → List (List Char)
  | [], acc => [acc.reverse]
  | c :: cs, acc =>
      if c == ',' then acc.reverse :: splitCommaAux cs []
      else splitCommaAux cs (c :: acc)

/-- `genres_str.split(',')`, each piece stripped, empties discarded:
`[g.strip() for g in genres_str.split(',') if g.strip()]`. -/
def parseGenres (s : String) : List String :=
  ((splitCommaAux s.data []).map (fun cs => String.mk (stripChars cs))).filter
    (fun g => g ≠ "")

/-- The `/api/add_book` endpoint.  Arguments mirror `data.get(...)`:
`title`/`author`/`publisher` may be absent (`None`), `genresStr` defaults to
`''`, `year`/`pages` are optional numbers run through `int(x) if x else None`.
`failAt` injects a store failure at the given step of the Cypher statement.
Returns the response and the resulting store state. -/
def add_book (conn : Bool) (title author : Option String) (genresStr : String)
    (publisher : Option String) (year pages : Option Int) (failAt : Option Nat)
    (st : GraphState) : Except ApiError String × GraphState :=
  if !conn then (.error .storeUnavailable, st)
  else if !(addBookValid title author genresStr) then
    (.error (.validationError "Título, autor e pelo menos um gênero são obrigatórios."), st)
  else
    let genres := parseGenres genresStr
    let steps := addBookSteps (author.getD "") (title.getD "")
      (pyOptInt year) (pyOptInt pages) genres publisher
    match runTx failAt steps st with
    | .ok st' => (.ok ("Livro '" ++ title.getD "" ++ "' adicionado/atualizado com sucesso!"), st')
    | .error e => (.error (.storeError e), st)

/-- Cypher `toLower` / Python `str.lower()` on a string. -/
def cypherToLower (s : String) : String := String.mk (s.data.map Char.toLower)

/-- Is `n` a contiguous leading segment of `h`? -/
def leadsList : List Char → List Char → Bool
  | [], _ => true
  | _ :: _, [] => false
  | a :: as', b :: bs => a == b && leadsList as' bs

/-- Does `h` contain `n` as a contiguous segment (Cypher `CONTAINS`)? -/
def containsList (n : List Char) : List Char → Bool
  | [] => leadsList n []
  | c :: cs => leadsList n (c :: cs) || containsList n cs

/-- `haystack CONTAINS needle` on strings. -/
def strContains (haystack needle : String) : Bool :=
  containsList needle.data haystack.data

/-- `WHERE toLower(g.nome) CONTAINS toLower($genre)`. -/
def genreMatches (queryGenre gname : String) : Bool :=
  strContains (cypherToLower gname) (cypherToLower queryGenre)

/-- `MERGE`-free lookup of a book node by title. -/
def getBook (t : String) (st : GraphState) : Option Book :=
  st.livros.find? (fun b => b.titulo == t)

/-- Names of all authors with an `ESCREVEU` edge to this title. -/
def authorsOf (t : String) (st : GraphState) : List String :=
  st.escreveu.filterMap (fun p => if p.2 == t then some p.1 else none)

/-- A result record of the recommendation queries, before JSON rendering:
`l.titulo, a.nome (nullable), g.nome, l.ano, l.paginas`. -/
structure Row where
  title : String
  author : Option String
  genre : String
  year : Option Int
  pages : Option Int
deriving DecidableEq, Repr

/-- A JSON value of the rendered recommendation entries: either a number
(year/pages present) or a string (names, or the `"N/A"` / `"Desconhecido"`
markers). -/
inductive JVal where
  | intVal (n : Int)
  | strVal (s : String)
deriving DecidableEq, Repr

/-- One entry of the `/api/recommendations` response body. -/
structure Rendered where
  title : String
  author : String
  genre : String
  year : JVal
  pages : JVal
deriving DecidableEq, Repr

/-- `record["year"] if record["year"] is not None else "N/A"`. -/
def renderOptField (o : Option Int) : JVal :=
  match o with
  | some n => .intVal n
  | none => .strVal "N/A"

/-- Build one response entry from a record, substituting the markers. -/
def renderRow (r : Row) : Rendered :=
  ⟨r.title, r.author.getD "Desconhecido", r.genre, renderOptField r.year,
   renderOptField r.pages⟩

/-- `MATCH (l:Livro)-[:TEM_GENERO]->(g:Genero) WHERE toLower(g.nome) CONTAINS
toLower($genre)`: one match per qualifying `TEM_GENERO` edge, paired with the
book node it starts from. -/
def genreRows (qg : String) (st : GraphState) : List (Book × String) :=
  st.temGenero.filterMap (fun p =>
    if genreMatches qg p.2 then (getBook p.1 st).map (fun b => (b, p.2)) else none)

/-- The sentinel-author query: `OPTIONAL MATCH (a:Autor)-[:ESCREVEU]->(l)` —
a book with no author yields one record with a null author. -/
def optionalAuthorRows (qg : String) (st : GraphState) : List Row :=
  (genreRows qg st).flatMap (fun bg =>
    match authorsOf bg.1.titulo st with
    | [] => [⟨bg.1.titulo, none, bg.2, bg.1.ano, bg.1.paginas⟩]
    | auths => auths.map (fun a => ⟨bg.1.titulo, some a, bg.2, bg.1.ano, bg.1.paginas⟩))

/-- The author-filtered query: `MATCH (a:Autor)-[:ESCREVEU]->(l) WHERE
toLower(a.nome) CONTAINS toLower($author)`. -/
def filteredAuthorRows (qg qa : String) (st : GraphState) : List Row :=
  (genreRows qg st).flatMap (fun bg =>
    (authorsOf bg.1.titulo st).filterMap (fun a =>
      if strContains (cypherToLower a) (cypherToLower qa) then
        some ⟨bg.1.titulo, some a, bg.2, bg.1.ano, bg.1.paginas⟩
      else none))

/-- The author-branch test `if author and author.lower() not in
['qualquer', '', 'any']`: true means the author-filtered query runs. -/
def authorFilterOn (author : Option String) : Bool :=
  match author with
  | none => false
  | some a => a ≠ "" && !(["qualquer", "", "any"].contains (cypherToLower a))

/-- The records produced for the chosen query branch. -/
def recRows (qg : String) (author : Option String) (st : GraphState) : List Row :=
  if authorFilterOn author then filteredAuthorRows qg (author.getD "") st
  else optionalAuthorRows qg st

/-- The `/api/recommendations` endpoint.  Branches on
`if author and author.lower() not in ['qualquer', '', 'any']`, runs the
corresponding query with `LIMIT 10`, and renders each record. -/
def get_recommendations (conn : Bool) (genre author : Option String)
    (st : GraphState) : Except ApiError (List Rendered) :=
  if !conn then .error .storeUnavailable
  else if !(pyTruthy genre) then
    .error (.validationError "O parâmetro 'genre' é obrigatório.")
  else
    .ok (((recRows (genre.getD "") author st).take 10).map renderRow)

/-- Write counters of a statement summary (`summary.counters.__dict__`). -/
structure WriteCounters where
  nodesCreated : Nat
  nodesDeleted : Nat
  relationshipsCreated : Nat
  relationshipsDeleted : Nat
  propertiesSet : Nat
deriving DecidableEq, Repr

/-- Outcome of iterating a statement result: either the row records, or the
"no result rows" condition raised while consuming a write-only result. -/
inductive CypherRecords where
  | rows (rs : List (List (String × JVal)))
  | noResultRows
deriving DecidableEq, Repr

/-- What the store does with one raw statement: the extraction outcome and
the write counters of its summary. -/
structure CypherOutcome where
  extraction : CypherRecords
  counters : WriteCounters
deriving DecidableEq, Repr

/-- The single-element summary record substituted for a write-only result. -/
def summaryRow (c : WriteCounters) : List (String × JVal) :=
  [("nodes_created", .intVal c.nodesCreated),
   ("nodes_deleted", .intVal c.nodesDeleted),
   ("relationships_created", .intVal c.relationshipsCreated),
   ("relationships_deleted", .intVal c.relationshipsDeleted),
   ("properties_set", .intVal c.propertiesSet)]

/-- The `/api/cypher` endpoint: reject a missing/empty query before the store;
otherwise try row extraction first and fall back to the summary only when
extraction raises the no-result-rows condition. -/
def execute_cypher_query (conn : Bool) (query : Option String)
    (store : CypherOutcome) : Except ApiError (List (List (String × JVal))) :=
  if !conn then .error .storeUnavailable
  else if !(pyTruthy query) then
    .error (.validationError "A consulta Cypher é obrigatória.")
  else
    match store.extraction with
    | .rows rs => .ok rs
    | .noResultRows => .ok [summaryRow store.counters]

/-- `get_node_count(label)`: 0 without a connection; otherwise the store's
answer to the count statement for that label, or 0 if the statement fails. -/
def get_node_count (conn : Bool) (store : String → Except String Int)
    (label : String) : Int :=
  if !conn then 0
  else
    match store label with
    | .ok n => n
    | .error _ => 0

/-- Insert into a list sorted descending by the count component. -/
def insertDesc (x : String × Nat) : List (String × Nat) → List (String × Nat)
  | [] => [x]
  | y :: ys => if x.2 > y.2 then x :: y :: ys else y :: insertDesc x ys

/-- Sort descending by count (`ORDER BY bookCount DESC`). -/
def sortDesc : List (String × Nat) → List (String × Nat)
  | [] => []
  | x :: xs => insertDesc x (sortDesc xs)

/-- The `/api/stats/most_productive_authors` endpoint: with no connection it
answers `jsonify([])`; otherwise each author with at least one `ESCREVEU` edge
to an existing book, ranked by edge count descending, top 3. -/
def most_productive_authors (conn : Bool) (st : GraphState) :
    Except ApiError (List (String × Nat)) :=
  if !conn then .ok []
  else
    let counts := st.autores.filterMap (fun a =>
      let c := (st.escreveu.filter (fun p => p.1 == a && livroExists p.2 st)).length
      if c > 0 then some (a, c) else none)
    .ok ((sortDesc counts).take 3)

/-- The `/api/stats/most_popular_genres` endpoint: with no connection it
answers `jsonify([])`; otherwise each genre with at least one incoming
`TEM_GENERO` edge from an existing book, ranked descending, top 3. -/
def most_popular_genres (conn : Bool) (st : GraphState) :
    Except ApiError (List (String × Nat)) :=
  if !conn then .ok []
  else
    let counts := st.generos.filterMap (fun g =>
      let c := (st.temGenero.filter (fun p => p.2 == g && livroExists p.1 st)).length
      if c > 0 then some (g, c) else none)
    .ok ((sortDesc counts).take 3)

/-- A step's post-condition: the merged node or edge is present. -/
def stepDone (s : UpsertStep) (st : GraphState) : Prop :=
  match s with
  | .mergeAutorS n => n ∈ st.autores
  | .mergeLivroS t _ _ => livroExists t st = true
  | .mergeEscreveuS a t => (a, t) ∈ st.escreveu
  | .mergeGeneroS g => g ∈ st.generos
  | .mergeTemGeneroS t g => (t, g) ∈ st.temGenero
  | .mergeEditoraS e => e ∈ st.editoras
  | .mergePublicadoPorS t p => (t, p) ∈ st.publicadoPor

theorem insEl_of_mem {α : Type} [DecidableEq α] {x : α} {xs : List α} (h : x ∈ xs) :
    insEl x xs = xs := by
  simp [insEl, h]

theorem mem_insEl_self {α : Type} [DecidableEq α] (x : α) (xs : List α) :
    x ∈ insEl x xs := by
  unfold insEl; split
  · assumption
  · simp

theorem mem_insEl_of_mem {α : Type} [DecidableEq α] {y : α} (x : α) {xs : List α}
    (h : y ∈ xs) : y ∈ insEl x xs := by
  unfold insEl; split
  · exact h
  · simp [h]

theorem livroExists_mergeLivro_self (t : String) (y p : Option Int) (st : GraphState) :
    livroExists t (mergeLivro t y p st) = true := by
  unfold mergeLivro; split
  · assumption
  · simp [livroExists]

theorem autores_mergeLivro (t : String) (y p : Option Int) (st : GraphState) :
    (mergeLivro t y p st).autores = st.autores := by
  unfold mergeLivro; split <;> rfl

theorem escreveu_mergeLivro (t : String) (y p : Option Int) (st : GraphState) :
    (mergeLivro t y p st).escreveu = st.escreveu := by
  unfold mergeLivro; split <;> rfl

theorem generos_mergeLivro (t : String) (y p : Option Int) (st : GraphState) :
    (mergeLivro t y p st).generos = st.generos := by
  unfold mergeLivro; split <;> rfl

theorem temGenero_mergeLivro (t : String) (y p : Option Int) (st : GraphState) :
    (mergeLivro t y p st).temGenero = st.temGenero := by
  unfold mergeLivro; split <;> rfl

theorem editoras_mergeLivro (t : String) (y p : Option Int) (st : GraphState) :
    (mergeLivro t y p st).editoras = st.editoras := by
  unfold mergeLivro; split <;> rfl

theorem publicadoPor_mergeLivro (t : String) (y p : Option Int) (st : GraphState) :
    (mergeLivro t y p st).publicadoPor = st.publicadoPor := by
  unfold mergeLivro; split <;> rfl

theorem livroExists_applyStep {t : String} {st : GraphState} (s : UpsertStep)
    (h : livroExists t st = true) : livroExists t (applyStep s st) = true := by
  cases s <;> simp only [applyStep] <;> try exact h
  case mergeLivroS t' y p =>
    unfold mergeLivro; split
    · exact h
    · simp only [livroExists, List.any_append] at h ⊢
      simp [h]

theorem stepDone_applyStep_self (s : UpsertStep) (st : GraphState) :
    stepDone s (applyStep s st) := by
  cases s <;> simp only [applyStep, stepDone] <;>
    first
      | exact mem_insEl_self _ _
      | exact livroExists_mergeLivro_self _ _ _ _

theorem stepDone_mono {s : UpsertStep} {st : GraphState} (s' : UpsertStep)
    (h : stepDone s st) : stepDone s (applyStep s' st) := by
  cases s
  case mergeLivroS t y p =>
    exact livroExists_applyStep s' h
  all_goals
    cases s' <;>
      simp_all [stepDone, applyStep, autores_mergeLivro, escreveu_mergeLivro,
        generos_mergeLivro, temGenero_mergeLivro, editoras_mergeLivro,
        publicadoPor_mergeLivro, mem_insEl_of_mem]

theorem applyStep_of_done {s : UpsertStep} {st : GraphState} (h : stepDone s st) :
    applyStep s st = st := by
  cases s <;> simp_all [stepDone, applyStep, insEl_of_mem, mergeLivro]

theorem runNoFail_nil (st : GraphState) : runNoFail [] st = st := rfl

theorem runNoFail_cons (s : UpsertStep) (steps : List UpsertStep) (st : GraphState) :
    runNoFail (s :: steps) st = runNoFail steps (applyStep s st) := rfl

theorem stepDone_runNoFail_mono {s : UpsertStep} (steps : List UpsertStep)
    {st : GraphState} (h : stepDone s st) : stepDone s (runNoFail steps st) := by
  induction steps generalizing st with
  | nil => exact h
  | cons a l ih => exact ih (stepDone_mono a h)

theorem allDone_runNoFail (steps : List UpsertStep) (st : GraphState) :
    ∀ s ∈ steps, stepDone s (runNoFail steps st) := by
  induction steps generalizing st with
  | nil => intro s hs; cases hs
  | cons a l ih =>
      intro s hs
      rcases List.mem_cons.mp hs with rfl | hmem
      · exact stepDone_runNoFail_mono l (stepDone_applyStep_self s st)
      · exact ih (applyStep a st) s hmem

theorem runNoFail_of_allDone {steps : List UpsertStep} {st : GraphState}
    (h : ∀ s ∈ steps, stepDone s st) : runNoFail steps st = st := by
  induction steps with
  | nil => rfl
  | cons a l ih =>
      rw [runNoFail_cons, applyStep_of_done (h a (List.mem_cons_self a l))]
      exact ih (fun s hs => h s (List.mem_cons_of_mem a hs))

theorem runNoFail_idem (steps : List UpsertStep) (st : GraphState) :
    runNoFail steps (runNoFail steps st) = runNoFail steps st :=
  runNoFail_of_allDone (allDone_runNoFail steps st)

/-- Does the injected failure point hit this statement? (It is a property of
the failure point and the step count only, not of the store state.) -/
def txFails (failAt : Option Nat) (idx : Nat) : List UpsertStep → Bool
  | [] => false
  | _ :: rest => failAt == some idx || txFails failAt (idx + 1) rest

theorem runTxAux_eq (f : Option Nat) (i : Nat) (steps : List UpsertStep) :
    ∀ st : GraphState, runTxAux f i steps st =
      if txFails f i steps then Except.error "falha simulada na transação"
      else Except.ok (runNoFail steps st) := by
  induction steps generalizing i with
  | nil => intro st; simp [runTxAux, txFails, runNoFail_nil]
  | cons s rest ih =>
      intro st
      simp only [runTxAux, txFails, runNoFail_cons]
      by_cases hf : f = some i
      · simp [hf]
      · simp only [hf, if_false, ih (i + 1) (applyStep s st)]
        have : (f == some i) = false := beq_eq_false_iff_ne.mpr hf
        simp [this]

theorem runTx_eq (f : Option Nat) (steps : List UpsertStep) (st : GraphState) :
    runTx f steps st =
      if txFails f 0 steps then Except.error "falha simulada na transação"
      else Except.ok (runNoFail steps st) :=
  runTxAux_eq f 0 steps st

/-- Store well-formedness: no duplicate node for one identity value and no
duplicate edge between one pair of nodes. -/
def wellFormed (st : GraphState) : Prop :=
  st.autores.Nodup ∧ (st.livros.map Book.titulo).Nodup ∧ st.generos.Nodup ∧
  st.editoras.Nodup ∧ st.escreveu.Nodup ∧ st.temGenero.Nodup ∧ st.publicadoPor.Nodup

instance (st : GraphState) : Decidable (wellFormed st) := by
  unfold wellFormed; infer_instance

theorem nodup_insEl {α : Type} [DecidableEq α] (x : α) {xs : List α} (h : xs.Nodup) :
    (insEl x xs).Nodup := by
  unfold insEl; split
  · exact h
  · rename_i hx
    simp [List.nodup_append, h, hx]

theorem nodup_titles_mergeLivro {t : String} {y p : Option Int} {st : GraphState}
    (h : (st.livros.map Book.titulo).Nodup) :
    ((mergeLivro t y p st).livros.map Book.titulo).Nodup := by
  unfold mergeLivro; split
  · exact h
  · rename_i hex
    have ht : t ∉ st.livros.map Book.titulo := by
      intro hmem
      rcases List.mem_map.mp hmem with ⟨b, hb, he⟩
      exact hex (by
        simp only [livroExists, List.any_eq_true]
        exact ⟨b, hb, by simp [he]⟩)
    simp [List.nodup_append, h, ht]

theorem wellFormed_applyStep (s : UpsertStep) {st : GraphState} (h : wellFormed st) :
    wellFormed (applyStep s st) := by
  obtain ⟨h1, h2, h3, h4, h5, h6, h7⟩ := h
  unfold wellFormed
  cases s <;>
    refine ⟨?_, ?_, ?_, ?_, ?_, ?_, ?_⟩ <;>
    simp only [applyStep, autores_mergeLivro, escreveu_mergeLivro, generos_mergeLivro,
      temGenero_mergeLivro, editoras_mergeLivro, publicadoPor_mergeLivro] <;>
    first
      | exact h1 | exact h2 | exact h3 | exact h4 | exact h5 | exact h6 | exact h7
      | exact nodup_insEl _ h1 | exact nodup_insEl _ h3 | exact nodup_insEl _ h4
      | exact nodup_insEl _ h5 | exact nodup_insEl _ h6 | exact nodup_insEl _ h7
      | exact nodup_titles_mergeLivro h2

theorem wellFormed_runNoFail (steps : List UpsertStep) {st : GraphState}
    (h : wellFormed st) : wellFormed (runNoFail steps st) := by
  induction steps generalizing st with
  | nil => exact h
  | cons a l ih => exact ih (wellFormed_applyStep a h)

theorem add_book_eq (conn : Bool) (title author : Option String) (gs : String)
    (pub : Option String) (y p : Option Int) (f : Option Nat) (st : GraphState) :
    add_book conn title author gs pub y p f st =
      if !conn then (.error .storeUnavailable, st)
      else if !(addBookValid title author gs) then
        (.error (.validationError "Título, autor e pelo menos um gênero são obrigatórios."), st)
      else if txFails f 0 (addBookSteps (author.getD "") (title.getD "")
          (pyOptInt y) (pyOptInt p) (parseGenres gs) pub) then
        (.error (.storeError "falha simulada na transação"), st)
      else
        (.ok ("Livro '" ++ title.getD "" ++ "' adicionado/atualizado com sucesso!"),
         runNoFail (addBookSteps (author.getD "") (title.getD "")
           (pyOptInt y) (pyOptInt p) (parseGenres gs) pub) st) := by
  simp only [add_book, runTx_eq]
  by_cases hc : conn
  · by_cases hv : addBookValid title author gs = true
    · by_cases hf : txFails f 0 (addBookSteps (author.getD "") (title.getD "")
          (pyOptInt y) (pyOptInt p) (parseGenres gs) pub) = true <;>
        simp [hc, hv, hf]
    · simp [hc, hv]
  · simp [hc]

/-- Claim C1: every upsert step of `add_book` runs inside one transaction;
if the statement fails at any point, the resulting store state is exactly the
state before the call — nothing created in the call persists. -/
theorem add_book_atomic (conn : Bool) (title author : Option String) (gs : String)
    (pub : Option String) (y p : Option Int) (f : Option Nat) (st : GraphState)
    (e : ApiError) (h : (add_book conn title author gs pub y p f st).1 = .error e) :
    (add_book conn title author gs pub y p f st).2 = st := by
  rw [add_book_eq] at h ⊢
  by_cases hc : conn
  · by_cases hv : addBookValid title author gs = true
    · by_cases hf : txFails f 0 (addBookSteps (author.getD "") (title.getD "")
          (pyOptInt y) (pyOptInt p) (parseGenres gs) pub) = true
      · simp [hc, hv, hf]
      · simp [hc, hv, hf] at h
    · simp [hc, hv]
  · simp [hc]

/-- Witness for C1: a failure injected at step 3 of a concrete `add_book`
call (after author, book and `ESCREVEU` were already executed) leaves the
store empty. -/
theorem add_book_atomic_witness :
    (add_book true (some "Duna") (some "Frank Herbert") "Ficção Científica, Aventura"
      (some "Aleph") (some 1965) (some 412) (some 3) GraphState.empty).2 =
      GraphState.empty :=
  add_book_atomic true (some "Duna") (some "Frank Herbert") "Ficção Científica, Aventura"
    (some "Aleph") (some 1965) (some 412) (some 3) GraphState.empty
    (ApiError.storeError "falha simulada na transação") rfl

/-- Claim C2: `add_book` is idempotent — a second call with identical
arguments leaves the store state of the first call unchanged — and it
preserves well-formedness (no duplicate nodes per identity value, no
duplicate edges between one pair of nodes). -/
theorem add_book_idempotent (conn : Bool) (title author : Option String) (gs : String)
    (pub : Option String) (y p : Option Int) (f : Option Nat) (st : GraphState) :
    (add_book conn title author gs pub y p f
        (add_book conn title author gs pub y p f st).2).2
      = (add_book conn title author gs pub y p f st).2
    ∧ (wellFormed st → wellFormed (add_book conn title author gs pub y p f st).2) := by
  constructor
  · simp only [add_book_eq]
    by_cases hc : conn
    · by_cases hv : addBookValid title author gs = true
      · by_cases hf : txFails f 0 (addBookSteps (author.getD "") (title.getD "")
            (pyOptInt y) (pyOptInt p) (parseGenres gs) pub) = true <;>
          simp [hc, hv, hf, runNoFail_idem]
      · simp [hc, hv]
    · simp [hc]
  · intro hw
    rw [add_book_eq]
    split
    · exact hw
    · split
      · exact hw
      · split
        · exact hw
        · exact wellFormed_runNoFail _ hw

/-- Witness for C2: the well-formedness hypothesis instantiated at the empty
store for a concrete call. -/
theorem add_book_idempotent_witness :
    wellFormed (add_book true (some "Duna") (some "Frank Herbert") "Ficção, Aventura"
      (some "Aleph") (some 1965) (some 412) none GraphState.empty).2 :=
  (add_book_idempotent true (some "Duna") (some "Frank Herbert") "Ficção, Aventura"
    (some "Aleph") (some 1965) (some 412) none GraphState.empty).2 (by decide)

theorem livros_applyStep_nonLivro (s : UpsertStep) (st : GraphState)
    (h : ∀ t y p, s ≠ UpsertStep.mergeLivroS t y p) :
    (applyStep s st).livros = st.livros := by
  cases s <;> first | rfl | exact absurd rfl (h _ _ _)

theorem getBook_none_livroExists {t : String} {st : GraphState}
    (h : getBook t st = none) : livroExists t st = false := by
  unfold getBook at h
  rw [List.find?_eq_none] at h
  unfold livroExists
  rw [List.any_eq_false]
  exact h

theorem getBook_mergeLivro_none {t : String} {st : GraphState} (y p : Option Int)
    (h : getBook t st = none) : getBook t (mergeLivro t y p st) = some ⟨t, y, p⟩ := by
  unfold mergeLivro
  rw [getBook_none_livroExists h]
  simp only [Bool.false_eq_true, if_false, getBook]
  unfold getBook at h
  rw [List.find?_append, h]
  simp

theorem getBook_applyStep_some {t : String} {st : GraphState} {b : Book}
    (s : UpsertStep) (h : getBook t st = some b) :
    getBook t (applyStep s st) = some b := by
  cases s <;> try exact h
  case mergeLivroS t' y p =>
    simp only [applyStep]
    unfold mergeLivro
    split
    · exact h
    · unfold getBook at h ⊢
      rw [List.find?_append, h]
      rfl

theorem getBook_runNoFail_some {t : String} {b : Book} (steps : List UpsertStep)
    {st : GraphState} (h : getBook t st = some b) :
    getBook t (runNoFail steps st) = some b := by
  induction steps generalizing st with
  | nil => exact h
  | cons a l ih => exact ih (getBook_applyStep_some a h)

theorem runNoFail_addBookSteps (a t : String) (y p : Option Int)
    (gen : List String) (pub : Option String) (st : GraphState) :
    runNoFail (addBookSteps a t y p gen pub) st =
      runNoFail (pubSteps t pub) (runNoFail (genreSteps t gen)
        (applyStep (UpsertStep.mergeEscreveuS a t)
          (applyStep (UpsertStep.mergeLivroS t y p)
            (applyStep (UpsertStep.mergeAutorS a) st)))) := by
  simp [addBookSteps, runNoFail, List.foldl_append]

/-- Counterexample to claim C3 as stated: a second `add_book` call for the
already-stored title "Duna" supplies `year = 2000`, `pages = 500`, yet the
stored book keeps `ano = 1990`, `paginas = 100` — supplied values are not
applied to an existing book (`ON CREATE SET` only fires on creation). -/
theorem add_book_year_overwrite_counterexample :
    getBook "Duna"
        (add_book true (some "Duna") (some "Frank Herbert") "Ficção" none
          (some 2000) (some 500) none
          (add_book true (some "Duna") (some "Frank Herbert") "Ficção" none
            (some 1990) (some 100) none GraphState.empty).2).2
      = some ⟨"Duna", some 1990, some 100⟩
    ∧ (getBook "Duna"
        (add_book true (some "Duna") (some "Frank Herbert") "Ficção" none
          (some 2000) (some 500) none
          (add_book true (some "Duna") (some "Frank Herbert") "Ficção" none
            (some 1990) (some 100) none GraphState.empty).2).2).map Book.ano
      ≠ some (some 2000) := by
  decide

/-- Claim C3 amended: `year`/`pages` are applied to the book node only when
the call creates it (then they carry the supplied values, absent ones staying
unset); on a call whose title already names a stored book, that book's `ano`
and `paginas` are left exactly as they were — in particular an absent value
never overwrites a stored one with null. -/
theorem add_book_year_pages_policy (title author gs : String)
    (pub : Option String) (y p : Option Int) (f : Option Nat) (st : GraphState) :
    (∀ b, getBook title st = some b →
      getBook title (add_book true (some title) (some author) gs pub y p f st).2 = some b)
    ∧ (getBook title st = none →
      (∃ m, (add_book true (some title) (some author) gs pub y p f st).1 = Except.ok m) →
      getBook title (add_book true (some title) (some author) gs pub y p f st).2
        = some ⟨title, pyOptInt y, pyOptInt p⟩) := by
  constructor
  · intro b hb
    rw [add_book_eq]
    simp only [Option.getD_some]
    by_cases hv : addBookValid (some title) (some author) gs = true
    · by_cases hf : txFails f 0 (addBookSteps author title
          (pyOptInt y) (pyOptInt p) (parseGenres gs) pub) = true
      · simp [hv, hf, hb]
      · simp only [hv, hf, Bool.not_true, Bool.not_false, if_true, if_false,
          Bool.false_eq_true]
        exact getBook_runNoFail_some _ hb
    · simp [hv, hb]
  · intro h0 hok
    obtain ⟨m, hm⟩ := hok
    rw [add_book_eq] at hm ⊢
    simp only [Option.getD_some] at hm ⊢
    by_cases hv : addBookValid (some title) (some author) gs = true
    · by_cases hf : txFails f 0 (addBookSteps author title
          (pyOptInt y) (pyOptInt p) (parseGenres gs) pub) = true
      · simp [hv, hf] at hm
      · simp only [hv, hf, Bool.not_true, Bool.not_false, if_true, if_false,
          Bool.false_eq_true]
        rw [runNoFail_addBookSteps]
        apply getBook_runNoFail_some
        apply getBook_runNoFail_some
        apply getBook_applyStep_some
        have h1 : getBook title (applyStep (UpsertStep.mergeAutorS author) st)
            = none := h0
        exact getBook_mergeLivro_none (pyOptInt y) (pyOptInt p) h1
    · simp [hv] at hm

/-- Witness for the amended C3: both parts at concrete inputs — the stored
book of a first call is kept unchanged by a second call, and a creating call
stores the supplied year and pages. -/
theorem add_book_year_pages_policy_witness :
    getBook "Duna"
        (add_book true (some "Duna") (some "Frank Herbert") "Ficção" none
          (some 2000) (some 500) none
          ⟨["Frank Herbert"], [⟨"Duna", some 1990, some 100⟩], ["Ficção"], [],
            [("Frank Herbert", "Duna")], [("Duna", "Ficção")], []⟩).2
      = some ⟨"Duna", some 1990, some 100⟩
    ∧ getBook "Duna"
        (add_book true (some "Duna") (some "Frank Herbert") "Ficção" none
          (some 1965) (some 412) none GraphState.empty).2
      = some ⟨"Duna", some 1965, some 412⟩ :=
  ⟨(add_book_year_pages_policy "Duna" "Frank Herbert" "Ficção" none
      (some 2000) (some 500) none
      ⟨["Frank Herbert"], [⟨"Duna", some 1990, some 100⟩], ["Ficção"], [],
        [("Frank Herbert", "Duna")], [("Duna", "Ficção")], []⟩).1
      ⟨"Duna", some 1990, some 100⟩ (by decide),
   by
    have h := (add_book_year_pages_policy "Duna" "Frank Herbert" "Ficção" none
      (some 1965) (some 412) none GraphState.empty).2 (by decide)
      ⟨"Livro 'Duna' adicionado/atualizado com sucesso!", by decide⟩
    simpa [pyOptInt] using h⟩

theorem txFails_none (i : Nat) (steps : List UpsertStep) : txFails none i steps = false := by
  induction steps generalizing i with
  | nil => rfl
  | cons s rest ih => simp [txFails, ih]

/-- Counterexample to claim C4 as stated: the genres input `" , "` contains no
non-empty genre name after splitting and trimming, yet the call passes the
`all([title, author_name, genres_str])` check, runs the statement, and changes
the store — the book is created with no genres and no validation error. -/
theorem add_book_validation_counterexample :
    (add_book true (some "Duna") (some "Frank Herbert") " , " none none none none
        GraphState.empty).1
      = Except.ok "Livro 'Duna' adicionado/atualizado com sucesso!"
    ∧ (add_book true (some "Duna") (some "Frank Herbert") " , " none none none none
        GraphState.empty).2
      = ⟨["Frank Herbert"], [⟨"Duna", none, none⟩], [], [],
         [("Frank Herbert", "Duna")], [], []⟩
    ∧ (add_book true (some "Duna") (some "Frank Herbert") " , " none none none none
        GraphState.empty).2 ≠ GraphState.empty := by
  decide

/-- Claim C4 amended: a missing or empty title, missing or empty author, or
empty genres string is rejected with the validation error before any store
statement, leaving the store unchanged; any call passing that check (even one
whose genres string trims to no genre names) reaches the store and, absent a
store failure, succeeds. -/
theorem add_book_validation (title author : Option String) (gs : String)
    (pub : Option String) (y p : Option Int) (f : Option Nat) (st : GraphState) :
    (addBookValid title author gs = false →
      add_book true title author gs pub y p f st
        = (Except.error (ApiError.validationError
            "Título, autor e pelo menos um gênero são obrigatórios."), st))
    ∧ (addBookValid title author gs = true →
      ∃ m, (add_book true title author gs pub y p none st).1 = Except.ok m) := by
  constructor
  · intro h
    rw [add_book_eq]
    simp [h]
  · intro h
    rw [add_book_eq]
    simp [h, txFails_none]

/-- Witness for the amended C4: a call with a missing title is rejected with
the validation error and the store is unchanged. -/
theorem add_book_validation_witness :
    add_book true none (some "Frank Herbert") "Ficção" none none none none
        GraphState.empty
      = (Except.error (ApiError.validationError
          "Título, autor e pelo menos um gênero são obrigatórios."), GraphState.empty) :=
  (add_book_validation none (some "Frank Herbert") "Ficção" none none none none
    GraphState.empty).1 (by decide)

/-- Is this step the publisher-node merge? -/
def touchesEditora : UpsertStep → Bool
  | .mergeEditoraS _ => true
  | _ => false

/-- Is this step the `PUBLICADO_POR` merge? -/
def touchesPublicadoPor : UpsertStep → Bool
  | .mergePublicadoPorS _ _ => true
  | _ => false

theorem editoras_applyStep_untouched {s : UpsertStep} (st : GraphState)
    (h : touchesEditora s = false) : (applyStep s st).editoras = st.editoras := by
  cases s <;> simp_all [touchesEditora, applyStep, editoras_mergeLivro]

theorem publicadoPor_applyStep_untouched {s : UpsertStep} (st : GraphState)
    (h : touchesPublicadoPor s = false) :
    (applyStep s st).publicadoPor = st.publicadoPor := by
  cases s <;> simp_all [touchesPublicadoPor, applyStep, publicadoPor_mergeLivro]

theorem editoras_runNoFail_untouched {steps : List UpsertStep} (st : GraphState)
    (h : ∀ s ∈ steps, touchesEditora s = false) :
    (runNoFail steps st).editoras = st.editoras := by
  induction steps generalizing st with
  | nil => rfl
  | cons a l ih =>
      rw [runNoFail_cons, ih (applyStep a st) (fun s hs => h s (List.mem_cons_of_mem a hs))]
      exact editoras_applyStep_untouched st (h a (List.mem_cons_self a l))

theorem publicadoPor_runNoFail_untouched {steps : List UpsertStep} (st : GraphState)
    (h : ∀ s ∈ steps, touchesPublicadoPor s = false) :
    (runNoFail steps st).publicadoPor = st.publicadoPor := by
  induction steps generalizing st with
  | nil => rfl
  | cons a l ih =>
      rw [runNoFail_cons, ih (applyStep a st) (fun s hs => h s (List.mem_cons_of_mem a hs))]
      exact publicadoPor_applyStep_untouched st (h a (List.mem_cons_self a l))

theorem addBookSteps_no_publisher_stage {a t : String} {y p : Option Int}
    {gen : List String} {pub : Option String} (hpub : pub = none ∨ pub = some "") :
    ∀ s ∈ addBookSteps a t y p gen pub,
      touchesEditora s = false ∧ touchesPublicadoPor s = false := by
  intro s hs
  have hps : pubSteps t pub = [] := by
    rcases hpub with rfl | rfl <;> simp [pubSteps]
  rw [addBookSteps, hps, List.append_nil] at hs
  rcases List.mem_append.mp hs with h3 | hgen
  · simp only [List.mem_cons, List.not_mem_nil, or_false] at h3
    rcases h3 with rfl | rfl | rfl <;> exact ⟨rfl, rfl⟩
  · rw [genreSteps] at hgen
    rcases List.mem_flatMap.mp hgen with ⟨g, _, hsg⟩
    simp only [List.mem_cons, List.not_mem_nil, or_false] at hsg
    rcases hsg with rfl | rfl <;> exact ⟨rfl, rfl⟩

/-- Claim C10: with a null or empty publisher argument, `add_book` creates no
`Editora` node and no `PUBLICADO_POR` edge, while the author, book,
`ESCREVEU` edge and every parsed genre with its `TEM_GENERO` edge of the same
call are still merged in — only the trailing publisher stage is filtered out. -/
theorem add_book_no_publisher (title author gs : String) (pub : Option String)
    (y p : Option Int) (st st' : GraphState)
    (hpub : pub = none ∨ pub = some "")
    (hv : addBookValid (some title) (some author) gs = true)
    (hst : st' = (add_book true (some title) (some author) gs pub y p none st).2) :
    st'.editoras = st.editoras
    ∧ st'.publicadoPor = st.publicadoPor
    ∧ author ∈ st'.autores
    ∧ livroExists title st' = true
    ∧ (author, title) ∈ st'.escreveu
    ∧ ∀ g ∈ parseGenres gs, g ∈ st'.generos ∧ (title, g) ∈ st'.temGenero := by
  subst hst
  rw [add_book_eq]
  simp only [Option.getD_some, hv, txFails_none, Bool.not_true, Bool.not_false,
    if_true, if_false, Bool.false_eq_true]
  have hall := allDone_runNoFail
    (addBookSteps author title (pyOptInt y) (pyOptInt p) (parseGenres gs) pub) st
  have hnopub := @addBookSteps_no_publisher_stage author title (pyOptInt y)
    (pyOptInt p) (parseGenres gs) pub hpub
  refine ⟨?_, ?_, ?_, ?_, ?_, ?_⟩
  · exact editoras_runNoFail_untouched st (fun s hs => (hnopub s hs).1)
  · exact publicadoPor_runNoFail_untouched st (fun s hs => (hnopub s hs).2)
  · exact hall (UpsertStep.mergeAutorS author) (by
      rw [addBookSteps]
      exact List.mem_append_left _ (List.mem_append_left _ (by simp)))
  · exact hall (UpsertStep.mergeLivroS title (pyOptInt y) (pyOptInt p)) (by
      rw [addBookSteps]
      exact List.mem_append_left _ (List.mem_append_left _ (by simp)))
  · exact hall (UpsertStep.mergeEscreveuS author title) (by
      rw [addBookSteps]
      exact List.mem_append_left _ (List.mem_append_left _ (by simp)))
  · intro g hg
    constructor
    · exact hall (UpsertStep.mergeGeneroS g) (by
        rw [addBookSteps]
        refine List.mem_append_left _ (List.mem_append_right _ ?_)
        rw [genreSteps]
        exact List.mem_flatMap.mpr ⟨g, hg, by simp⟩)
    · exact hall (UpsertStep.mergeTemGeneroS title g) (by
        rw [addBookSteps]
        refine List.mem_append_left _ (List.mem_append_right _ ?_)
        rw [genreSteps]
        exact List.mem_flatMap.mpr ⟨g, hg, by simp⟩)

/-- Witness for C10: a concrete call with a null publisher creates the author,
book, authorship edge and both genres, and no publisher data. -/
theorem add_book_no_publisher_witness :
    ((add_book true (some "Duna") (some "Frank Herbert") "Ficção, Aventura" none
        (some 1965) (some 412) none GraphState.empty).2).editoras
      = GraphState.empty.editoras
    ∧ ((add_book true (some "Duna") (some "Frank Herbert") "Ficção, Aventura" none
        (some 1965) (some 412) none GraphState.empty).2).publicadoPor
      = GraphState.empty.publicadoPor
    ∧ "Frank Herbert" ∈ ((add_book true (some "Duna") (some "Frank Herbert")
        "Ficção, Aventura" none (some 1965) (some 412) none GraphState.empty).2).autores
    ∧ livroExists "Duna" ((add_book true (some "Duna") (some "Frank Herbert")
        "Ficção, Aventura" none (some 1965) (some 412) none GraphState.empty).2) = true
    ∧ ("Frank Herbert", "Duna") ∈ ((add_book true (some "Duna") (some "Frank Herbert")
        "Ficção, Aventura" none (some 1965) (some 412) none GraphState.empty).2).escreveu
    ∧ ∀ g ∈ parseGenres "Ficção, Aventura",
        g ∈ ((add_book true (some "Duna") (some "Frank Herbert") "Ficção, Aventura" none
          (some 1965) (some 412) none GraphState.empty).2).generos
        ∧ ("Duna", g) ∈ ((add_book true (some "Duna") (some "Frank Herbert")
          "Ficção, Aventura" none (some 1965) (some 412) none GraphState.empty).2).temGenero :=
  add_book_no_publisher "Duna" "Frank Herbert" "Ficção, Aventura" none
    (some 1965) (some 412) GraphState.empty _ (Or.inl rfl) (by decide) rfl

/-- Claim C7: the raw query gateway rejects an empty or missing query string
as a client error independently of anything the store would do, and for a
non-empty query the row-vs-summary choice is deterministic — rows are
returned whenever extraction yields rows, and the single-element write
summary is substituted exactly when extraction raises the no-result-rows
condition. -/
theorem execute_cypher_contract (query : Option String) (store store2 : CypherOutcome) :
    (pyTruthy query = false →
      execute_cypher_query true query store
        = Except.error (ApiError.validationError "A consulta Cypher é obrigatória.")
      ∧ execute_cypher_query true query store = execute_cypher_query true query store2)
    ∧ (pyTruthy query = true →
      (∀ rs, store.extraction = CypherRecords.rows rs →
        execute_cypher_query true query store = Except.ok rs)
      ∧ (store.extraction = CypherRecords.noResultRows →
        execute_cypher_query true query store = Except.ok [summaryRow store.counters])) := by
  constructor
  · intro h
    constructor <;> simp [execute_cypher_query, h]
  · intro h
    constructor
    · intro rs hrs
      simp [execute_cypher_query, h, hrs]
    · intro hnr
      simp [execute_cypher_query, h, hnr]

/-- Witness for C7: a missing query is rejected regardless of store outcome,
and a write-only outcome yields the summary row. -/
theorem execute_cypher_contract_witness :
    execute_cypher_query true none ⟨CypherRecords.noResultRows, ⟨1, 0, 2, 0, 3⟩⟩
      = Except.error (ApiError.validationError "A consulta Cypher é obrigatória.")
    ∧ execute_cypher_query true (some "CREATE (n:Livro)")
        ⟨CypherRecords.noResultRows, ⟨1, 0, 2, 0, 3⟩⟩
      = Except.ok [summaryRow ⟨1, 0, 2, 0, 3⟩] :=
  ⟨((execute_cypher_contract none ⟨CypherRecords.noResultRows, ⟨1, 0, 2, 0, 3⟩⟩
      ⟨CypherRecords.rows [], ⟨0, 0, 0, 0, 0⟩⟩).1 (by decide)).1,
   ((execute_cypher_contract (some "CREATE (n:Livro)")
      ⟨CypherRecords.noResultRows, ⟨1, 0, 2, 0, 3⟩⟩
      ⟨CypherRecords.rows [], ⟨0, 0, 0, 0, 0⟩⟩).2 (by decide)).2 rfl⟩

/-- Counterexample to claim C8 as stated: with no live connection the
top-authors ranking endpoint does not signal the store-unavailable error —
it returns the success payload `[]` (`jsonify([])`). -/
theorem no_connection_ranking_counterexample :
    most_productive_authors false GraphState.empty = Except.ok []
    ∧ (most_productive_authors false GraphState.empty).isOk = true
    ∧ most_popular_genres false GraphState.empty = Except.ok []
    ∧ (most_popular_genres false GraphState.empty).isOk = true := by
  decide

/-- Claim C8 amended: with no live connection, `add_book`, the
recommendations query and the raw query gateway short-circuit with the
store-unavailable error before touching the store; the two ranking endpoints
instead return an empty success list, and the node counter returns 0. -/
theorem no_connection_behavior (genre author title author2 query : Option String)
    (gs : String) (pub : Option String) (y p : Option Int) (f : Option Nat)
    (st : GraphState) (store : CypherOutcome)
    (countStore : String → Except String Int) (label : String) :
    get_recommendations false genre author st = Except.error ApiError.storeUnavailable
    ∧ execute_cypher_query false query store = Except.error ApiError.storeUnavailable
    ∧ (add_book false title author2 gs pub y p f st).1
        = Except.error ApiError.storeUnavailable
    ∧ (add_book false title author2 gs pub y p f st).2 = st
    ∧ most_productive_authors false st = Except.ok []
    ∧ most_popular_genres false st = Except.ok []
    ∧ get_node_count false countStore label = 0 := by
  refine ⟨rfl, rfl, ?_, ?_, rfl, rfl, rfl⟩ <;> rw [add_book_eq] <;> rfl

/-- Claim C9: `get_node_count` never raises — it is a total function — and it
returns 0 both when the connection is absent and when the count statement
fails for any reason. -/
theorem get_node_count_degrades (conn : Bool) (store store2 : String → Except String Int)
    (label label2 msg : String) (h : store label = Except.error msg) :
    get_node_count conn store label = 0 ∧ get_node_count false store2 label2 = 0 := by
  constructor
  · cases conn
    · rfl
    · simp [get_node_count, h]
  · rfl

/-- Witness for C9: a store whose count statement fails yields 0 with a live
connection, and any store yields 0 without one. -/
theorem get_node_count_degrades_witness :
    get_node_count true (fun _ => Except.error "consulta falhou") "Autor" = 0
    ∧ get_node_count false (fun _ => Except.ok 7) "Livro" = 0 :=
  get_node_count_degrades true (fun _ => Except.error "consulta falhou")
    (fun _ => Except.ok 7) "Autor" "Livro" "consulta falhou" rfl

theorem cypherToLower_eq_empty (s : String) : cypherToLower s = "" ↔ s = "" := by
  simp [cypherToLower, String.ext_iff]

theorem genreRows_congr {g1 g2 : String} (st : GraphState)
    (h : cypherToLower g1 = cypherToLower g2) :
    genreRows g1 st = genreRows g2 st := by
  unfold genreRows genreMatches strContains
  rw [h]

theorem recRows_congr {g1 g2 : String} (author : Option String) (st : GraphState)
    (h : cypherToLower g1 = cypherToLower g2) :
    recRows g1 author st = recRows g2 author st := by
  unfold recRows filteredAuthorRows optionalAuthorRows
  rw [genreRows_congr st h]

/-- Claim C6: the genre filter is case-insensitive — two genre arguments that
agree up to letter case give identical recommendation results, for any author
argument, connection status and store state. -/
theorem recommendations_genre_case_insensitive (g1 g2 : String)
    (author : Option String) (conn : Bool) (st : GraphState)
    (h : cypherToLower g1 = cypherToLower g2) :
    get_recommendations conn (some g1) author st
      = get_recommendations conn (some g2) author st := by
  have hg : (g1 = "") ↔ (g2 = "") := by
    rw [← cypherToLower_eq_empty g1, ← cypherToLower_eq_empty g2, h]
  cases conn with
  | false => rfl
  | true =>
      by_cases he : g1 = ""
      · have he2 : g2 = "" := hg.mp he
        subst he he2
        rfl
      · have he2 : ¬ g2 = "" := fun hx => he (hg.mpr hx)
        unfold get_recommendations
        simp [pyTruthy, he, he2, recRows_congr author st h]

/-- Witness for C6: `"FANTASIA"` and `"fantasia"` give identical results on a
concrete store. -/
theorem recommendations_genre_case_insensitive_witness :
    get_recommendations true (some "FANTASIA") none
        ⟨["Frank Herbert"], [⟨"Duna", some 1965, some 412⟩], ["Ficção"], [],
         [("Frank Herbert", "Duna")], [("Duna", "Ficção")], []⟩
      = get_recommendations true (some "fantasia") none
        ⟨["Frank Herbert"], [⟨"Duna", some 1965, some 412⟩], ["Ficção"], [],
         [("Frank Herbert", "Duna")], [("Duna", "Ficção")], []⟩ :=
  recommendations_genre_case_insensitive "FANTASIA" "fantasia" none true
    ⟨["Frank Herbert"], [⟨"Duna", some 1965, some 412⟩], ["Ficção"], [],
     [("Frank Herbert", "Duna")], [("Duna", "Ficção")], []⟩ (by decide)

theorem renderOptField_shape (o : Option Int) :
    (∃ n, renderOptField o = JVal.intVal n) ∨ renderOptField o = JVal.strVal "N/A" := by
  cases o with
  | none => exact Or.inr rfl
  | some n => exact Or.inl ⟨n, rfl⟩

theorem mem_authorsOf {a t : String} {st : GraphState} :
    a ∈ authorsOf t st ↔ (a, t) ∈ st.escreveu := by
  unfold authorsOf
  constructor
  · intro h
    rcases List.mem_filterMap.mp h with ⟨⟨p1, p2⟩, hp, hpa⟩
    by_cases hc : p2 = t
    · subst hc
      simp only [beq_self_eq_true, if_true, Option.some.injEq] at hpa
      subst hpa
      exact hp
    · simp [hc] at hpa
  · intro h
    exact List.mem_filterMap.mpr ⟨(a, t), h, by simp⟩

theorem exists_row_title {g : String} {st : GraphState} (bg : Book × String)
    (hbg : bg ∈ genreRows g st) :
    ∃ r ∈ optionalAuthorRows g st, r.title = bg.1.titulo := by
  unfold optionalAuthorRows
  cases hcase : authorsOf bg.1.titulo st with
  | nil =>
      refine ⟨⟨bg.1.titulo, none, bg.2, bg.1.ano, bg.1.paginas⟩, ?_, rfl⟩
      refine List.mem_flatMap.mpr ⟨bg, hbg, ?_⟩
      rw [hcase]
      simp
  | cons a rest =>
      refine ⟨⟨bg.1.titulo, some a, bg.2, bg.1.ano, bg.1.paginas⟩, ?_, rfl⟩
      refine List.mem_flatMap.mpr ⟨bg, hbg, ?_⟩
      rw [hcase]
      exact List.mem_map.mpr ⟨a, List.mem_cons_self a rest, rfl⟩

theorem optionalAuthorRows_author_shape {g : String} {st : GraphState} {r : Row}
    (hr : r ∈ optionalAuthorRows g st) :
    (r.author = none ∧ authorsOf r.title st = [])
    ∨ ∃ a, r.author = some a ∧ a ∈ authorsOf r.title st := by
  unfold optionalAuthorRows at hr
  rcases List.mem_flatMap.mp hr with ⟨bg, hbg, hrin⟩
  cases hcase : authorsOf bg.1.titulo st with
  | nil =>
      rw [hcase] at hrin
      simp only [List.mem_singleton] at hrin
      subst hrin
      exact Or.inl ⟨rfl, hcase⟩
  | cons a rest =>
      rw [hcase] at hrin
      rcases List.mem_map.mp hrin with ⟨a', ha', hr'⟩
      subst hr'
      refine Or.inr ⟨a', rfl, ?_⟩
      rw [show (Row.mk bg.1.titulo (some a') bg.2 bg.1.ano bg.1.paginas).title
        = bg.1.titulo from rfl, hcase]
      exact ha'

theorem filteredAuthorRows_shape {g qa : String} {st : GraphState} {r : Row}
    (hr : r ∈ filteredAuthorRows g qa st) :
    ∃ a, r.author = some a ∧ a ∈ authorsOf r.title st
      ∧ strContains (cypherToLower a) (cypherToLower qa) = true := by
  unfold filteredAuthorRows at hr
  rcases List.mem_flatMap.mp hr with ⟨bg, hbg, hrin⟩
  rcases List.mem_filterMap.mp hrin with ⟨a, ha, hfa⟩
  by_cases hc : strContains (cypherToLower a) (cypherToLower qa) = true
  · simp only [hc, if_true, Option.some.injEq] at hfa
    subst hfa
    refine ⟨a, rfl, ?_, hc⟩
    rw [show (Row.mk bg.1.titulo (some a) bg.2 bg.1.ano bg.1.paginas).title
      = bg.1.titulo from rfl]
    exact ha
  · simp [hc] at hfa

theorem get_recommendations_ok {genre : String} (hg : genre ≠ "")
    (author : Option String) (st : GraphState) :
    get_recommendations true (some genre) author st
      = Except.ok (((recRows genre author st).take 10).map renderRow) := by
  simp [get_recommendations, pyTruthy, hg]

/-- Claim C5: for a non-empty genre argument the recommendations call
succeeds with at most 10 entries, missing year/pages rendered as the `"N/A"`
marker; when the author argument is absent or a sentinel (`''`, `'any'`, or
the localized `'qualquer'`, case-insensitively), every book with a matching
genre edge appears (up to the 10-entry cap) and an authorless book is
returned with the `"Desconhecido"` marker; otherwise each returned entry is
backed by an `ESCREVEU` edge whose author name contains the author argument
case-insensitively. -/
theorem get_recommendations_contract (genre : String) (author : Option String)
    (st : GraphState) (hg : genre ≠ "") :
    ∃ entries, get_recommendations true (some genre) author st = Except.ok entries
    ∧ entries.length ≤ 10
    ∧ (∀ e ∈ entries, ((∃ n, e.year = JVal.intVal n) ∨ e.year = JVal.strVal "N/A")
        ∧ ((∃ n, e.pages = JVal.intVal n) ∨ e.pages = JVal.strVal "N/A"))
    ∧ (authorFilterOn author = false →
        ((optionalAuthorRows genre st).length ≤ 10 →
          ∀ tg ∈ st.temGenero, genreMatches genre tg.2 = true →
            ∀ b, getBook tg.1 st = some b → ∃ e ∈ entries, e.title = b.titulo)
        ∧ (∀ e ∈ entries, authorsOf e.title st = [] → e.author = "Desconhecido"))
    ∧ (authorFilterOn author = true →
        ∀ e ∈ entries, ∃ a, e.author = a ∧ (a, e.title) ∈ st.escreveu
          ∧ strContains (cypherToLower a) (cypherToLower (author.getD "")) = true) := by
  refine ⟨((recRows genre author st).take 10).map renderRow,
    get_recommendations_ok hg author st, ?_, ?_, ?_, ?_⟩
  · simp only [List.length_map, List.length_take]
    exact Nat.min_le_left _ _
  · intro e he
    rcases List.mem_map.mp he with ⟨r, _, rfl⟩
    exact ⟨renderOptField_shape r.year, renderOptField_shape r.pages⟩
  · intro hsent
    have hrec : recRows genre author st = optionalAuthorRows genre st := by
      simp [recRows, hsent]
    constructor
    · intro hlen tg htg hmatch b hbook
      have hbg : (b, tg.2) ∈ genreRows genre st := by
        refine List.mem_filterMap.mpr ⟨tg, htg, ?_⟩
        simp [hmatch, hbook]
      rcases exists_row_title (b, tg.2) hbg with ⟨r, hrmem, hrt⟩
      refine ⟨renderRow r, List.mem_map.mpr ⟨r, ?_, rfl⟩, hrt⟩
      rw [hrec, List.take_of_length_le hlen]
      exact hrmem
    · intro e he hnone
      rcases List.mem_map.mp he with ⟨r, hrtake, rfl⟩
      have hrmem : r ∈ optionalAuthorRows genre st := by
        rw [← hrec]
        exact List.take_subset 10 _ hrtake
      rcases optionalAuthorRows_author_shape hrmem with ⟨hna, _⟩ | ⟨a, hra, hain⟩
      · simp [renderRow, hna]
      · simp only [renderRow] at hnone ⊢
        rw [hnone] at hain
        cases hain
  · intro hfil e he
    rcases List.mem_map.mp he with ⟨r, hrtake, rfl⟩
    have hrmem : r ∈ filteredAuthorRows genre (author.getD "") st := by
      have hrec : recRows genre author st
          = filteredAuthorRows genre (author.getD "") st := by
        simp [recRows, hfil]
      rw [← hrec]
      exact List.take_subset 10 _ hrtake
    rcases filteredAuthorRows_shape hrmem with ⟨a, hra, hain, hcont⟩
    refine ⟨a, ?_, ?_, hcont⟩
    · simp [renderRow, hra]
    · have := mem_authorsOf.mp hain
      simpa [renderRow] using this

/-- Witness for C5: the contract instantiated at genre `"fic"`, a sentinel
author, and a concrete two-book store. -/
theorem get_recommendations_contract_witness :
    ∃ entries, get_recommendations true (some "fic") (some "Qualquer")
        ⟨["Frank Herbert"], [⟨"Duna", some 1965, some 412⟩, ⟨"Anônimo", none, none⟩],
         ["Ficção"], [], [("Frank Herbert", "Duna")],
         [("Duna", "Ficção"), ("Anônimo", "Ficção")], []⟩ = Except.ok entries
    ∧ entries.length ≤ 10
    ∧ (∀ e ∈ entries, ((∃ n, e.year = JVal.intVal n) ∨ e.year = JVal.strVal "N/A")
        ∧ ((∃ n, e.pages = JVal.intVal n) ∨ e.pages = JVal.strVal "N/A"))
    ∧ (authorFilterOn (some "Qualquer") = false →
        ((optionalAuthorRows "fic"
            ⟨["Frank Herbert"], [⟨"Duna", some 1965, some 412⟩, ⟨"Anônimo", none, none⟩],
             ["Ficção"], [], [("Frank Herbert", "Duna")],
             [("Duna", "Ficção"), ("Anônimo", "Ficção")], []⟩).length ≤ 10 →
          ∀ tg ∈ [("Duna", "Ficção"), ("Anônimo", "Ficção")],
            genreMatches "fic" tg.2 = true →
            ∀ b, getBook tg.1
                ⟨["Frank Herbert"], [⟨"Duna", some 1965, some 412⟩, ⟨"Anônimo", none, none⟩],
                 ["Ficção"], [], [("Frank Herbert", "Duna")],
                 [("Duna", "Ficção"), ("Anônimo", "Ficção")], []⟩ = some b →
              ∃ e ∈ entries, e.title = b.titulo)
        ∧ (∀ e ∈ entries, authorsOf e.title
              ⟨["Frank Herbert"], [⟨"Duna", some 1965, some 412⟩, ⟨"Anônimo", none, none⟩],
               ["Ficção"], [], [("Frank Herbert", "Duna")],
               [("Duna", "Ficção"), ("Anônimo", "Ficção")], []⟩ = [] →
            e.author = "Desconhecido"))
    ∧ (authorFilterOn (some "Qualquer") = true →
        ∀ e ∈ entries, ∃ a, e.author = a ∧ (a, e.title) ∈ [("Frank Herbert", "Duna")]
          ∧ strContains (cypherToLower a) (cypherToLower ((some "Qualquer").getD ""))
            = true) :=
  get_recommendations_contract "fic" (some "Qualquer")
    ⟨["Frank Herbert"], [⟨"Duna", some 1965, some 412⟩, ⟨"Anônimo", none, none⟩],
     ["Ficção"], [], [("Frank Herbert", "Duna")],
     [("Duna", "Ficção"), ("Anônimo", "Ficção")], []⟩ (by decide)
